import Mathlib

/-!
A shallow embedding of the service reconciliation core of the contour
operator (internal/operator/controller/contour/service.go).

The reconciler talks to a remote resource store through get / create /
update / delete primitives.  One invocation of an ensure operation
consumes at most one get result and one mutating-call result, so a store
is embedded as a bundle of response functions; each ensure operation
returns the reconciliation outcome together with the list of store calls
it issued, in order.
-/

namespace ContourOperator

/-- A key/value list standing for a Kubernetes string map
(labels, annotations, pod selectors). -/
abbrev KVMap := List (String × String)

/-- Lookup of a key in a key/value map; the first binding wins. -/
def lookupKV : KVMap → String → Option String
  | [], _ => none
  | (k, v) :: rest, key => if k = key then some v else lookupKV rest key

/-- Modelled from the spec: labels/annotations are merged by key — desired
keys are set/overwritten, foreign keys are left untouched (§4.4 of the
spec; the merge lives in the equality package, which is outside src/). -/
def mergeKV (cur des : KVMap) : KVMap :=
  cur.filter (fun p => (lookupKV des p.1).isNone) ++ des

/-- corev1.ServicePort: a named port with protocol and target port. -/
structure ServicePort where
  name : String
  port : Int
  protocol : String
  targetPort : Int
deriving DecidableEq, Repr

/-- corev1.Service, flattened to the fields the reconciler reads or
writes.  `ns` is the object's metadata.namespace (namespace is a Lean
keyword), `clusterIP` and `resourceVersion` stand for the store-assigned
fields an update must preserve. -/
structure Service where
  ns : String
  name : String
  labels : KVMap
  serviceAnnotations : KVMap
  ports : List ServicePort
  selector : KVMap
  type : String
  sessionAffinity : String
  externalTrafficPolicy : String
  clusterIP : String
  resourceVersion : String
deriving DecidableEq, Repr

/-- The parent Contour object: its own name and namespace, plus
contour.Spec.Namespace.Name, the namespace selected for child
resources. -/
structure Contour where
  name : String
  ns : String
  specNamespaceName : String
deriving DecidableEq, Repr

/-- contourSvcName: the fixed name of Contour's Service. -/
def contourSvcName : String := "contour"

/-- envoySvcName: the fixed name of Envoy's Service. -/
def envoySvcName : String := "envoy"

/-- awsLbBackendProtoAnnot: the Service annotation key that places the AWS
ELB into raw-TCP backend mode. -/
def awsLbBackendProtoAnnot : String :=
  "service.beta.kubernetes.io/aws-load-balancer-backend-protocol"

/-- Modelled from the spec: the owning-parent-name label key
(operatorv1alpha1.OwningContourNameLabel, declared outside src/). -/
def OwningContourNameLabel : String :=
  "contour.operator.projectcontour.io/owning-contour-name"

/-- Modelled from the spec: the owning-parent-namespace label key
(operatorv1alpha1.OwningContourNsLabel, declared outside src/). -/
def OwningContourNsLabel : String :=
  "contour.operator.projectcontour.io/owning-contour-namespace"

/-- Modelled from the spec: the fixed control-plane (xDS) port
(xdsPort, declared outside src/). -/
def xdsPort : Int := 8001

/-- Modelled from the spec: the fixed plaintext data-plane port
(httpPort, declared outside src/). -/
def httpPort : Int := 80

/-- Modelled from the spec: the fixed TLS data-plane port
(httpsPort, declared outside src/). -/
def httpsPort : Int := 443

/-- Modelled from the spec: the pod selector of the control-plane
workload (contourDeploymentPodSelector().MatchLabels, declared outside
src/). -/
def contourDeploymentPodSelector : KVMap := [("app", "contour")]

/-- Modelled from the spec: the pod selector of the data-plane workload
(envoyDaemonSetPodSelector().MatchLabels, declared outside src/). -/
def envoyDaemonSetPodSelector : KVMap := [("app", "envoy")]

/-- DesiredContourService generates the desired Contour Service for the
given contour: cluster-local, one xDS port, control-plane selector, no
annotations, owner labels from the contour's name and namespace, living
in the contour's selected namespace. -/
def DesiredContourService (contour : Contour) : Service :=
  { ns := contour.specNamespaceName
    name := contourSvcName
    labels := [(OwningContourNameLabel, contour.name),
               (OwningContourNsLabel, contour.ns)]
    serviceAnnotations := []
    ports := [{ name := "xds", port := xdsPort, protocol := "TCP",
                targetPort := xdsPort }]
    selector := contourDeploymentPodSelector
    type := "ClusterIP"
    sessionAffinity := "None"
    externalTrafficPolicy := ""
    clusterIP := ""
    resourceVersion := "" }

/-- DesiredEnvoyService generates the desired Envoy Service for the given
contour: load-balanced, http and https ports, data-plane selector, the
AWS raw-TCP backend annotation, external-traffic policy Local, owner
labels from the contour's name and namespace, living in the contour's
selected namespace. -/
def DesiredEnvoyService (contour : Contour) : Service :=
  { ns := contour.specNamespaceName
    name := envoySvcName
    labels := [(OwningContourNameLabel, contour.name),
               (OwningContourNsLabel, contour.ns)]
    serviceAnnotations := [(awsLbBackendProtoAnnot, "tcp")]
    ports := [{ name := "http", port := httpPort, protocol := "TCP",
                targetPort := httpPort },
              { name := "https", port := httpsPort, protocol := "TCP",
                targetPort := httpsPort }]
    selector := envoyDaemonSetPodSelector
    type := "LoadBalancer"
    sessionAffinity := "None"
    externalTrafficPolicy := "Local"
    clusterIP := ""
    resourceVersion := "" }

/-- Modelled from the spec: the ownership guard isOwnedBy
(ownerLabelsExist, declared outside src/): true iff both ownership labels
are present and their values exactly equal the parent's name and
namespace respectively (§4.3 of the spec). -/
def ownerLabelsExist (svc : Service) (contour : Contour) : Bool :=
  lookupKV svc.labels OwningContourNameLabel == some contour.name &&
  lookupKV svc.labels OwningContourNsLabel == some contour.ns

/-- Modelled from the spec: the internal-kind change detector
(equality.ClusterIPServiceChanged, declared outside src/).  Managed field
subset for the internal kind: ports, selector, session affinity.  When
all managed fields already match it returns changed = false and the
unmodified current object; otherwise it starts from current, overwrites
the managed fields with desired's values, merges labels and annotations
by key, and returns changed = true (§4.4 of the spec). -/
def ClusterIPServiceChanged (current desired : Service) : Service × Bool :=
  if current.ports = desired.ports ∧ current.selector = desired.selector ∧
      current.sessionAffinity = desired.sessionAffinity then
    (current, false)
  else
    ({ current with
        ports := desired.ports
        selector := desired.selector
        sessionAffinity := desired.sessionAffinity
        labels := mergeKV current.labels desired.labels
        serviceAnnotations :=
          mergeKV current.serviceAnnotations desired.serviceAnnotations },
     true)

/-- Modelled from the spec: the external-kind change detector
(equality.LoadBalancerServiceChanged, declared outside src/).  Managed
field subset for the external kind: additionally to the internal subset,
the exposure type, the external-traffic policy and the cloud backend
annotation (§4.4 of the spec). -/
def LoadBalancerServiceChanged (current desired : Service) :
    Service × Bool :=
  if current.ports = desired.ports ∧ current.selector = desired.selector ∧
      current.sessionAffinity = desired.sessionAffinity ∧
      current.type = desired.type ∧
      current.externalTrafficPolicy = desired.externalTrafficPolicy ∧
      lookupKV current.serviceAnnotations awsLbBackendProtoAnnot =
        lookupKV desired.serviceAnnotations awsLbBackendProtoAnnot then
    (current, false)
  else
    ({ current with
        ports := desired.ports
        selector := desired.selector
        sessionAffinity := desired.sessionAffinity
        type := desired.type
        externalTrafficPolicy := desired.externalTrafficPolicy
        labels := mergeKV current.labels desired.labels
        serviceAnnotations :=
          mergeKV current.serviceAnnotations desired.serviceAnnotations },
     true)

/-- A store error: the distinguished, recoverable NotFound condition
(errors.IsNotFound) versus every other, opaque failure. -/
inductive StoreErr where
  | notFound
  | other (msg : String)
deriving DecidableEq, Repr

/-- errors.IsNotFound. -/
def StoreErr.isNotFound : StoreErr → Bool
  | .notFound => true
  | .other _ => false

/-- The store operations an ensure pass can invoke. -/
inductive OpKind where
  | get
  | create
  | update
  | delete
deriving DecidableEq, Repr

/-- The error value an ensure operation returns: either a store error
propagated raw (Go's bare `return err`), or one wrapped by
fmt.Errorf("failed to <op> service <ns>/<name>: %w", err). -/
inductive ReconcileErr where
  | store (e : StoreErr)
  | wrap (op : OpKind) (ns name : String) (cause : ReconcileErr)
deriving DecidableEq, Repr

/-- Whether an error carries at least one wrapping layer (a namespace/name
plus the kind of operation that failed). -/
def ReconcileErr.isWrapped : ReconcileErr → Bool
  | .wrap _ _ _ _ => true
  | .store _ => false

/-- One remote call issued against the store, with its argument. -/
inductive Call where
  | get (ns name : String)
  | create (svc : Service)
  | update (svc : Service)
  | delete (svc : Service)
deriving DecidableEq, Repr

/-- Whether a call is a get. -/
def Call.isGet : Call → Bool
  | .get _ _ => true
  | _ => false

/-- Whether a call is a create. -/
def Call.isCreate : Call → Bool
  | .create _ => true
  | _ => false

/-- Whether a call is an update. -/
def Call.isUpdate : Call → Bool
  | .update _ => true
  | _ => false

/-- Whether a call is a delete. -/
def Call.isDelete : Call → Bool
  | .delete _ => true
  | _ => false

/-- Whether a call mutates store state (create, update or delete). -/
def Call.isMutating : Call → Bool
  | .get _ _ => false
  | _ => true

/-- The store, embedded as the responses it would give: a get result per
namespace/name key, and a result per create / update / delete argument
(none = success). -/
structure StoreBehavior where
  getRes : String → String → Except StoreErr Service
  createRes : Service → Option StoreErr
  updateRes : Service → Option StoreErr
  deleteRes : Service → Option StoreErr

/-- Outcome of one ensure pass: the returned error or success, with the
ordered list of store calls issued. -/
abbrev ReconcileResult := Except ReconcileErr Unit × List Call

/-- Prefix a reconcile result's call trace with one more call. -/
def prependCall (call : Call) (r : ReconcileResult) : ReconcileResult :=
  (r.1, call :: r.2)

/-- currentContourService: reads the current Contour Service, keyed by the
contour's selected namespace and the fixed contour service name. -/
def currentContourService (st : StoreBehavior) (contour : Contour) :
    Except StoreErr Service :=
  st.getRes contour.specNamespaceName contourSvcName

/-- currentEnvoyService: reads the current Envoy Service, keyed by the
contour's selected namespace and the fixed envoy service name. -/
def currentEnvoyService (st : StoreBehavior) (contour : Contour) :
    Except StoreErr Service :=
  st.getRes contour.specNamespaceName envoySvcName

/-- createService: issues one create with the provided service; a create
error comes back wrapped with the service's namespace/name. -/
def createService (st : StoreBehavior) (svc : Service) : ReconcileResult :=
  match st.createRes svc with
  | some e => (.error (.wrap .create svc.ns svc.name (.store e)),
               [Call.create svc])
  | none => (.ok (), [Call.create svc])

/-- The update step shared by both updateIfNeeded functions: issues one
update with the merged service; an update error comes back wrapped with
the service's namespace/name. -/
def updateServiceCall (st : StoreBehavior) (svc : Service) :
    ReconcileResult :=
  match st.updateRes svc with
  | some e => (.error (.wrap .update svc.ns svc.name (.store e)),
               [Call.update svc])
  | none => (.ok (), [Call.update svc])

/-- updateContourServiceIfNeeded: skips (successfully, no call) when owner
labels are missing; otherwise updates only when the internal-kind change
detector reports a change. -/
def updateContourServiceIfNeeded (st : StoreBehavior) (contour : Contour)
    (current desired : Service) : ReconcileResult :=
  if ownerLabelsExist current contour then
    if (ClusterIPServiceChanged current desired).2 then
      updateServiceCall st (ClusterIPServiceChanged current desired).1
    else (.ok (), [])
  else (.ok (), [])

/-- updateEnvoyServiceIfNeeded: skips (successfully, no call) when owner
labels are missing; otherwise updates only when the external-kind change
detector reports a change. -/
def updateEnvoyServiceIfNeeded (st : StoreBehavior) (contour : Contour)
    (current desired : Service) : ReconcileResult :=
  if ownerLabelsExist current contour then
    if (LoadBalancerServiceChanged current desired).2 then
      updateServiceCall st (LoadBalancerServiceChanged current desired).1
    else (.ok (), [])
  else (.ok (), [])

/-- ensureContourService: get; on NotFound create the desired service; on
another get error abort wrapped; otherwise run the guarded update, whose
error is wrapped once more with the desired namespace/name. -/
def ensureContourService (st : StoreBehavior) (contour : Contour) :
    ReconcileResult :=
  match currentContourService st contour with
  | .error e =>
    if e.isNotFound then
      prependCall (Call.get contour.specNamespaceName contourSvcName)
        (createService st (DesiredContourService contour))
    else
      (.error (.wrap .get (DesiredContourService contour).ns
          (DesiredContourService contour).name (.store e)),
       [Call.get contour.specNamespaceName contourSvcName])
  | .ok current =>
    match updateContourServiceIfNeeded st contour current
        (DesiredContourService contour) with
    | (.error e, calls) =>
      (.error (.wrap .update (DesiredContourService contour).ns
          (DesiredContourService contour).name e),
       Call.get contour.specNamespaceName contourSvcName :: calls)
    | (.ok _, calls) =>
      (.ok (), Call.get contour.specNamespaceName contourSvcName :: calls)

/-- ensureEnvoyService: get; on NotFound create the desired service; on
another get error abort wrapped; otherwise run the guarded update, whose
error is wrapped once more with the desired namespace/name. -/
def ensureEnvoyService (st : StoreBehavior) (contour : Contour) :
    ReconcileResult :=
  match currentEnvoyService st contour with
  | .error e =>
    if e.isNotFound then
      prependCall (Call.get contour.specNamespaceName envoySvcName)
        (createService st (DesiredEnvoyService contour))
    else
      (.error (.wrap .get (DesiredEnvoyService contour).ns
          (DesiredEnvoyService contour).name (.store e)),
       [Call.get contour.specNamespaceName envoySvcName])
  | .ok current =>
    match updateEnvoyServiceIfNeeded st contour current
        (DesiredEnvoyService contour) with
    | (.error e, calls) =>
      (.error (.wrap .update (DesiredEnvoyService contour).ns
          (DesiredEnvoyService contour).name e),
       Call.get contour.specNamespaceName envoySvcName :: calls)
    | (.ok _, calls) =>
      (.ok (), Call.get contour.specNamespaceName envoySvcName :: calls)

/-- ensureContourServiceDeleted: get; NotFound means already absent
(success); another get error is returned raw; a present service is
deleted only when the ownership guard passes, a delete NotFound is
success, another delete error is returned raw. -/
def ensureContourServiceDeleted (st : StoreBehavior) (contour : Contour) :
    ReconcileResult :=
  match currentContourService st contour with
  | .error e =>
    if e.isNotFound then
      (.ok (), [Call.get contour.specNamespaceName contourSvcName])
    else
      (.error (.store e),
       [Call.get contour.specNamespaceName contourSvcName])
  | .ok svc =>
    if ownerLabelsExist svc contour then
      match st.deleteRes svc with
      | some e =>
        if e.isNotFound then
          (.ok (), [Call.get contour.specNamespaceName contourSvcName,
                    Call.delete svc])
        else
          (.error (.store e),
           [Call.get contour.specNamespaceName contourSvcName,
            Call.delete svc])
      | none =>
        (.ok (), [Call.get contour.specNamespaceName contourSvcName,
                  Call.delete svc])
    else
      (.ok (), [Call.get contour.specNamespaceName contourSvcName])

/-- ensureEnvoyServiceDeleted: get; NotFound means already absent
(success); another get error is returned raw; a present service is
deleted only when the ownership guard passes, a delete NotFound is
success, another delete error is returned raw. -/
def ensureEnvoyServiceDeleted (st : StoreBehavior) (contour : Contour) :
    ReconcileResult :=
  match currentEnvoyService st contour with
  | .error e =>
    if e.isNotFound then
      (.ok (), [Call.get contour.specNamespaceName envoySvcName])
    else
      (.error (.store e),
       [Call.get contour.specNamespaceName envoySvcName])
  | .ok svc =>
    if ownerLabelsExist svc contour then
      match st.deleteRes svc with
      | some e =>
        if e.isNotFound then
          (.ok (), [Call.get contour.specNamespaceName envoySvcName,
                    Call.delete svc])
        else
          (.error (.store e),
           [Call.get contour.specNamespaceName envoySvcName,
            Call.delete svc])
      | none =>
        (.ok (), [Call.get contour.specNamespaceName envoySvcName,
                  Call.delete svc])
    else
      (.ok (), [Call.get contour.specNamespaceName envoySvcName])

/-- Number of update calls in a trace. -/
def countUpdates (calls : List Call) : Nat :=
  calls.countP (fun call => call.isUpdate)

/-- Number of create calls in a trace. -/
def countCreates (calls : List Call) : Nat :=
  calls.countP (fun call => call.isCreate)

/-- Number of delete calls in a trace. -/
def countDeletes (calls : List Call) : Nat :=
  calls.countP (fun call => call.isDelete)

/-- Number of get calls in a trace. -/
def countGets (calls : List Call) : Nat :=
  calls.countP (fun call => call.isGet)

/-- Number of mutating calls (create, update or delete) in a trace. -/
def countMutating (calls : List Call) : Nat :=
  calls.countP (fun call => call.isMutating)

/-! Concrete fixtures used by the witness and counterexample theorems. -/

/-- A concrete parent whose own namespace differs from its selected
child namespace. -/
def cW : Contour :=
  { name := "proj", ns := "operator-ns", specNamespaceName := "projectcontour" }

/-- A store where both services are absent and every mutation succeeds. -/
def stAbsent : StoreBehavior :=
  { getRes := fun _ _ => .error .notFound
    createRes := fun _ => none
    updateRes := fun _ => none
    deleteRes := fun _ => none }

/-- A service carrying no ownership labels and stale managed fields. -/
def svcUnowned : Service :=
  { ns := "projectcontour", name := "contour", labels := [],
    serviceAnnotations := [], ports := [], selector := [],
    type := "ClusterIP", sessionAffinity := "None",
    externalTrafficPolicy := "", clusterIP := "10.0.0.7",
    resourceVersion := "41" }

/-- A store whose gets observe the unowned, stale service. -/
def stUnowned : StoreBehavior :=
  { getRes := fun _ _ => .ok svcUnowned
    createRes := fun _ => none
    updateRes := fun _ => none
    deleteRes := fun _ => none }

/-- A store whose gets fail with an opaque (non-NotFound) error. -/
def stGetBoom : StoreBehavior :=
  { getRes := fun _ _ => .error (.other "boom")
    createRes := fun _ => none
    updateRes := fun _ => none
    deleteRes := fun _ => none }

/-- A store observing the owned desired Contour service whose delete
races: the delete itself reports NotFound. -/
def stDeleteRace : StoreBehavior :=
  { getRes := fun _ _ => .ok (DesiredContourService cW)
    createRes := fun _ => none
    updateRes := fun _ => none
    deleteRes := fun _ => some .notFound }

/-- A store observing exactly the desired Contour service, as after a
first ensure pass created it with no intervening external change. -/
def stSecondPass : StoreBehavior :=
  { getRes := fun _ _ => .ok (DesiredContourService cW)
    createRes := fun _ => none
    updateRes := fun _ => none
    deleteRes := fun _ => none }

/-- A store with both services absent whose creates fail with an opaque
(non-NotFound) error. -/
def stCreateBoom : StoreBehavior :=
  { getRes := fun _ _ => .error .notFound
    createRes := fun _ => some (.other "cboom")
    updateRes := fun _ => none
    deleteRes := fun _ => none }

/-- A store observing the owned desired Contour service whose deletes
fail with an opaque (non-NotFound) error. -/
def stDeleteBoom : StoreBehavior :=
  { getRes := fun _ _ => .ok (DesiredContourService cW)
    createRes := fun _ => none
    updateRes := fun _ => none
    deleteRes := fun _ => some (.other "dboom") }

/-!  Claim theorems. -/

/-- C2: if the store's get reports NotFound, EnsureExists issues exactly
one create call whose argument equals the desired service for the parent
and kind, issues no update call, and returns success when the create
succeeds. -/
theorem ensureExists_creates_when_absent (st : StoreBehavior) (c : Contour) :
    (currentContourService st c = .error .notFound →
      (ensureContourService st c).2 =
        [Call.get c.specNamespaceName contourSvcName,
         Call.create (DesiredContourService c)] ∧
      (st.createRes (DesiredContourService c) = none →
        (ensureContourService st c).1 = .ok ())) ∧
    (currentEnvoyService st c = .error .notFound →
      (ensureEnvoyService st c).2 =
        [Call.get c.specNamespaceName envoySvcName,
         Call.create (DesiredEnvoyService c)] ∧
      (st.createRes (DesiredEnvoyService c) = none →
        (ensureEnvoyService st c).1 = .ok ())) := by
  constructor
  · intro hget
    unfold ensureContourService
    rw [hget]
    constructor
    · simp [StoreErr.isNotFound, prependCall, createService]
      cases st.createRes (DesiredContourService c) <;> simp
    · intro hok
      simp [StoreErr.isNotFound, prependCall, createService, hok]
  · intro hget
    unfold ensureEnvoyService
    rw [hget]
    constructor
    · simp [StoreErr.isNotFound, prependCall, createService]
      cases st.createRes (DesiredEnvoyService c) <;> simp
    · intro hok
      simp [StoreErr.isNotFound, prependCall, createService, hok]

/-- C2 witness: with both services absent and a succeeding create, the
Contour ensure pass issues one get then one create of the desired
service, and succeeds. -/
theorem ensureExists_creates_when_absent_witness :
    (ensureContourService stAbsent cW).2 =
      [Call.get "projectcontour" contourSvcName,
       Call.create (DesiredContourService cW)] ∧
    (ensureContourService stAbsent cW).1 = .ok () :=
  ⟨((ensureExists_creates_when_absent stAbsent cW).1 rfl).1,
   ((ensureExists_creates_when_absent stAbsent cW).1 rfl).2 rfl⟩

/-- C3: if the observed current service does not pass the ownership-label
check, EnsureExists issues zero update calls (the trace is the lone get)
and returns success. -/
theorem ensureExists_skips_unowned (st : StoreBehavior) (c : Contour) :
    (∀ cur, currentContourService st c = .ok cur →
      ownerLabelsExist cur c = false →
      ensureContourService st c =
        (.ok (), [Call.get c.specNamespaceName contourSvcName])) ∧
    (∀ cur, currentEnvoyService st c = .ok cur →
      ownerLabelsExist cur c = false →
      ensureEnvoyService st c =
        (.ok (), [Call.get c.specNamespaceName envoySvcName])) := by
  constructor
  · intro cur hget hown
    unfold ensureContourService
    rw [hget]
    simp [updateContourServiceIfNeeded, hown]
  · intro cur hget hown
    unfold ensureEnvoyService
    rw [hget]
    simp [updateEnvoyServiceIfNeeded, hown]

/-- C3 witness: observing an unlabeled service whose managed fields all
differ from desired, the Contour ensure pass issues no mutation and
succeeds. -/
theorem ensureExists_skips_unowned_witness :
    ensureContourService stUnowned cW =
      (.ok (), [Call.get "projectcontour" contourSvcName]) :=
  (ensureExists_skips_unowned stUnowned cW).1 svcUnowned rfl rfl

/-- C5: EnsureDeleted returns success with zero delete calls when the get
reports NotFound, and when the delete call itself reports NotFound the
result is still success. -/
theorem ensureDeleted_idempotent (st : StoreBehavior) (c : Contour) :
    (currentContourService st c = .error .notFound →
      ensureContourServiceDeleted st c =
        (.ok (), [Call.get c.specNamespaceName contourSvcName])) ∧
    (currentEnvoyService st c = .error .notFound →
      ensureEnvoyServiceDeleted st c =
        (.ok (), [Call.get c.specNamespaceName envoySvcName])) ∧
    (∀ cur, currentContourService st c = .ok cur →
      st.deleteRes cur = some .notFound →
      (ensureContourServiceDeleted st c).1 = .ok ()) ∧
    (∀ cur, currentEnvoyService st c = .ok cur →
      st.deleteRes cur = some .notFound →
      (ensureEnvoyServiceDeleted st c).1 = .ok ()) := by
  refine ⟨?_, ?_, ?_, ?_⟩
  · intro hget
    unfold ensureContourServiceDeleted
    rw [hget]
    simp [StoreErr.isNotFound]
  · intro hget
    unfold ensureEnvoyServiceDeleted
    rw [hget]
    simp [StoreErr.isNotFound]
  · intro cur hget hdel
    unfold ensureContourServiceDeleted
    rw [hget]
    cases hown : ownerLabelsExist cur c <;>
      simp [hown, hdel, StoreErr.isNotFound]
  · intro cur hget hdel
    unfold ensureEnvoyServiceDeleted
    rw [hget]
    cases hown : ownerLabelsExist cur c <;>
      simp [hown, hdel, StoreErr.isNotFound]

/-- C5 witness: deleting an absent service succeeds with zero delete
calls, and a delete pass racing with another deleter (delete reports
NotFound) still succeeds. -/
theorem ensureDeleted_idempotent_witness :
    ensureContourServiceDeleted stAbsent cW =
      (.ok (), [Call.get "projectcontour" contourSvcName]) ∧
    (ensureContourServiceDeleted stDeleteRace cW).1 = .ok () :=
  ⟨(ensureDeleted_idempotent stAbsent cW).1 rfl,
   (ensureDeleted_idempotent stDeleteRace cW).2.2.1
     (DesiredContourService cW) rfl rfl⟩

/-- C1: when the kind's change detector reports changed = false on the
observed current service, EnsureExists issues zero update calls and zero
create calls; consequently a second EnsureExists after a create, with no
intervening external change (the get observes exactly the desired
service), issues zero create and zero update calls and succeeds. -/
theorem ensureExists_noop_when_unchanged (st : StoreBehavior) (c : Contour) :
    (∀ cur, currentContourService st c = .ok cur →
      (ClusterIPServiceChanged cur (DesiredContourService c)).2 = false →
      countUpdates (ensureContourService st c).2 = 0 ∧
      countCreates (ensureContourService st c).2 = 0) ∧
    (∀ cur, currentEnvoyService st c = .ok cur →
      (LoadBalancerServiceChanged cur (DesiredEnvoyService c)).2 = false →
      countUpdates (ensureEnvoyService st c).2 = 0 ∧
      countCreates (ensureEnvoyService st c).2 = 0) ∧
    (currentContourService st c = .ok (DesiredContourService c) →
      ensureContourService st c =
        (.ok (), [Call.get c.specNamespaceName contourSvcName])) ∧
    (currentEnvoyService st c = .ok (DesiredEnvoyService c) →
      ensureEnvoyService st c =
        (.ok (), [Call.get c.specNamespaceName envoySvcName])) := by
  refine ⟨?_, ?_, ?_, ?_⟩
  · intro cur hget hch
    unfold ensureContourService
    rw [hget]
    cases hown : ownerLabelsExist cur c <;>
      simp [updateContourServiceIfNeeded, hown, hch, countUpdates,
        countCreates, List.countP, List.countP.go, Call.isUpdate,
        Call.isCreate]
  · intro cur hget hch
    unfold ensureEnvoyService
    rw [hget]
    cases hown : ownerLabelsExist cur c <;>
      simp [updateEnvoyServiceIfNeeded, hown, hch, countUpdates,
        countCreates, List.countP, List.countP.go, Call.isUpdate,
        Call.isCreate]
  · intro hget
    unfold ensureContourService
    rw [hget]
    have hch : (ClusterIPServiceChanged (DesiredContourService c)
        (DesiredContourService c)).2 = false := by
      simp [ClusterIPServiceChanged]
    cases hown : ownerLabelsExist (DesiredContourService c) c <;>
      simp [updateContourServiceIfNeeded, hown, hch]
  · intro hget
    unfold ensureEnvoyService
    rw [hget]
    have hch : (LoadBalancerServiceChanged (DesiredEnvoyService c)
        (DesiredEnvoyService c)).2 = false := by
      simp [LoadBalancerServiceChanged]
    cases hown : ownerLabelsExist (DesiredEnvoyService c) c <;>
      simp [updateEnvoyServiceIfNeeded, hown, hch]

/-- C1 witness: a second Contour ensure pass, observing exactly the
service the first pass created, issues only the get and succeeds. -/
theorem ensureExists_noop_when_unchanged_witness :
    ensureContourService stSecondPass cW =
      (.ok (), [Call.get "projectcontour" contourSvcName]) :=
  (ensureExists_noop_when_unchanged stSecondPass cW).2.2.1 rfl

/-- C4: if the observed current service does not pass the ownership-label
check, EnsureDeleted issues zero delete calls and returns success; and a
delete call is only ever issued for a service the get observed and on
which the ownership check succeeds. -/
theorem ensureDeleted_ownership_gate (st : StoreBehavior) (c : Contour) :
    (∀ cur, currentContourService st c = .ok cur →
      ownerLabelsExist cur c = false →
      ensureContourServiceDeleted st c =
        (.ok (), [Call.get c.specNamespaceName contourSvcName])) ∧
    (∀ cur, currentEnvoyService st c = .ok cur →
      ownerLabelsExist cur c = false →
      ensureEnvoyServiceDeleted st c =
        (.ok (), [Call.get c.specNamespaceName envoySvcName])) ∧
    (∀ s, Call.delete s ∈ (ensureContourServiceDeleted st c).2 →
      currentContourService st c = .ok s ∧ ownerLabelsExist s c = true) ∧
    (∀ s, Call.delete s ∈ (ensureEnvoyServiceDeleted st c).2 →
      currentEnvoyService st c = .ok s ∧ ownerLabelsExist s c = true) := by
  refine ⟨?_, ?_, ?_, ?_⟩
  · intro cur hget hown
    unfold ensureContourServiceDeleted
    rw [hget]
    simp [hown]
  · intro cur hget hown
    unfold ensureEnvoyServiceDeleted
    rw [hget]
    simp [hown]
  · intro s hs
    unfold ensureContourServiceDeleted at hs
    cases hget : currentContourService st c with
    | error e =>
      rw [hget] at hs
      cases e <;> simp [StoreErr.isNotFound] at hs
    | ok svc =>
      rw [hget] at hs
      cases hown : ownerLabelsExist svc c
      · simp [hown] at hs
      · rcases hdel : st.deleteRes svc with _ | e
        · simp [hown, hdel] at hs
          subst hs
          exact ⟨rfl, hown⟩
        · cases e <;> simp [hown, hdel, StoreErr.isNotFound] at hs <;>
            subst hs <;> exact ⟨rfl, hown⟩
  · intro s hs
    unfold ensureEnvoyServiceDeleted at hs
    cases hget : currentEnvoyService st c with
    | error e =>
      rw [hget] at hs
      cases e <;> simp [StoreErr.isNotFound] at hs
    | ok svc =>
      rw [hget] at hs
      cases hown : ownerLabelsExist svc c
      · simp [hown] at hs
      · rcases hdel : st.deleteRes svc with _ | e
        · simp [hown, hdel] at hs
          subst hs
          exact ⟨rfl, hown⟩
        · cases e <;> simp [hown, hdel, StoreErr.isNotFound] at hs <;>
            subst hs <;> exact ⟨rfl, hown⟩

/-- C4 witness: a delete pass observing an unlabeled service issues zero
delete calls and succeeds. -/
theorem ensureDeleted_ownership_gate_witness :
    ensureContourServiceDeleted stUnowned cW =
      (.ok (), [Call.get "projectcontour" contourSvcName]) :=
  (ensureDeleted_ownership_gate stUnowned cW).1 svcUnowned rfl rfl

/-- C6 counterexample: a non-NotFound get error during EnsureDeleted is
returned to the caller as the raw store error, with no wrapping layer (no
namespace/name, no operation kind), contradicting the claim that every
non-NotFound store error during EnsureExists or EnsureDeleted is
propagated wrapped. -/
theorem ensureDeleted_error_unwrapped_cex :
    (ensureContourServiceDeleted stGetBoom cW).1 =
      .error (.store (.other "boom")) ∧
    (ReconcileErr.store (.other "boom")).isWrapped = false :=
  ⟨rfl, rfl⟩

/-- C6 amended: every non-NotFound store error during EnsureExists (get,
create or update) is propagated wrapped with the resource's
namespace/name and the kind of operation that failed (a get failure is
wrapped with the get operation, a create failure with the create
operation, an update failure with the update operation — twice, by the
updateIfNeeded layer and again by the ensure layer); during EnsureDeleted
a non-NotFound get or delete error is propagated to the caller raw,
without any wrapping. -/
theorem reconcile_error_wrapping (st : StoreBehavior) (c : Contour) :
    (∀ ge, currentContourService st c = .error ge → ge.isNotFound = false →
      (ensureContourService st c).1 =
        .error (.wrap .get c.specNamespaceName contourSvcName
          (.store ge))) ∧
    (∀ ce, currentContourService st c = .error .notFound →
      st.createRes (DesiredContourService c) = some ce →
      (ensureContourService st c).1 =
        .error (.wrap .create c.specNamespaceName contourSvcName
          (.store ce))) ∧
    (∀ cur ue, currentContourService st c = .ok cur →
      ownerLabelsExist cur c = true →
      (ClusterIPServiceChanged cur (DesiredContourService c)).2 = true →
      st.updateRes (ClusterIPServiceChanged cur (DesiredContourService c)).1
        = some ue →
      (ensureContourService st c).1 =
        .error (.wrap .update c.specNamespaceName contourSvcName
          (.wrap .update
            (ClusterIPServiceChanged cur (DesiredContourService c)).1.ns
            (ClusterIPServiceChanged cur (DesiredContourService c)).1.name
            (.store ue)))) ∧
    (∀ ge, currentEnvoyService st c = .error ge → ge.isNotFound = false →
      (ensureEnvoyService st c).1 =
        .error (.wrap .get c.specNamespaceName envoySvcName
          (.store ge))) ∧
    (∀ ce, currentEnvoyService st c = .error .notFound →
      st.createRes (DesiredEnvoyService c) = some ce →
      (ensureEnvoyService st c).1 =
        .error (.wrap .create c.specNamespaceName envoySvcName
          (.store ce))) ∧
    (∀ cur ue, currentEnvoyService st c = .ok cur →
      ownerLabelsExist cur c = true →
      (LoadBalancerServiceChanged cur (DesiredEnvoyService c)).2 = true →
      st.updateRes (LoadBalancerServiceChanged cur (DesiredEnvoyService c)).1
        = some ue →
      (ensureEnvoyService st c).1 =
        .error (.wrap .update c.specNamespaceName envoySvcName
          (.wrap .update
            (LoadBalancerServiceChanged cur (DesiredEnvoyService c)).1.ns
            (LoadBalancerServiceChanged cur (DesiredEnvoyService c)).1.name
            (.store ue)))) ∧
    (∀ ge, currentContourService st c = .error ge → ge.isNotFound = false →
      (ensureContourServiceDeleted st c).1 = .error (.store ge)) ∧
    (∀ cur de, currentContourService st c = .ok cur →
      ownerLabelsExist cur c = true → st.deleteRes cur = some de →
      de.isNotFound = false →
      (ensureContourServiceDeleted st c).1 = .error (.store de)) ∧
    (∀ ge, currentEnvoyService st c = .error ge → ge.isNotFound = false →
      (ensureEnvoyServiceDeleted st c).1 = .error (.store ge)) ∧
    (∀ cur de, currentEnvoyService st c = .ok cur →
      ownerLabelsExist cur c = true → st.deleteRes cur = some de →
      de.isNotFound = false →
      (ensureEnvoyServiceDeleted st c).1 = .error (.store de)) ∧
    (∀ e, (ensureContourServiceDeleted st c).1 = .error e →
      ∃ se, e = .store se) ∧
    (∀ e, (ensureEnvoyServiceDeleted st c).1 = .error e →
      ∃ se, e = .store se) := by
  refine ⟨?_, ?_, ?_, ?_, ?_, ?_, ?_, ?_, ?_, ?_, ?_, ?_⟩
  · intro ge hget hnf
    unfold ensureContourService
    rw [hget]
    simp [hnf, DesiredContourService]
  · intro ce hget hc
    unfold ensureContourService
    rw [hget]
    simp [StoreErr.isNotFound, prependCall, createService, hc]
    exact ⟨rfl, rfl⟩
  · intro cur ue hget hown hch hu
    unfold ensureContourService
    rw [hget]
    simp [updateContourServiceIfNeeded, hown, hch, updateServiceCall, hu]
    exact ⟨rfl, rfl⟩
  · intro ge hget hnf
    unfold ensureEnvoyService
    rw [hget]
    simp [hnf, DesiredEnvoyService]
  · intro ce hget hc
    unfold ensureEnvoyService
    rw [hget]
    simp [StoreErr.isNotFound, prependCall, createService, hc]
    exact ⟨rfl, rfl⟩
  · intro cur ue hget hown hch hu
    unfold ensureEnvoyService
    rw [hget]
    simp [updateEnvoyServiceIfNeeded, hown, hch, updateServiceCall, hu]
    exact ⟨rfl, rfl⟩
  · intro ge hget hnf
    unfold ensureContourServiceDeleted
    rw [hget]
    simp [hnf]
  · intro cur de hget hown hdel hnf
    unfold ensureContourServiceDeleted
    rw [hget]
    simp [hown, hdel, hnf]
  · intro ge hget hnf
    unfold ensureEnvoyServiceDeleted
    rw [hget]
    simp [hnf]
  · intro cur de hget hown hdel hnf
    unfold ensureEnvoyServiceDeleted
    rw [hget]
    simp [hown, hdel, hnf]
  · intro e he
    unfold ensureContourServiceDeleted at he
    cases hget : currentContourService st c with
    | error ge =>
      rw [hget] at he
      cases ge <;> simp [StoreErr.isNotFound] at he
      exact ⟨_, he.symm⟩
    | ok svc =>
      rw [hget] at he
      cases hown : ownerLabelsExist svc c
      · simp [hown] at he
      · rcases hdel : st.deleteRes svc with _ | de
        · simp [hown, hdel] at he
        · cases de <;> simp [hown, hdel, StoreErr.isNotFound] at he
          exact ⟨_, he.symm⟩
  · intro e he
    unfold ensureEnvoyServiceDeleted at he
    cases hget : currentEnvoyService st c with
    | error ge =>
      rw [hget] at he
      cases ge <;> simp [StoreErr.isNotFound] at he
      exact ⟨_, he.symm⟩
    | ok svc =>
      rw [hget] at he
      cases hown : ownerLabelsExist svc c
      · simp [hown] at he
      · rcases hdel : st.deleteRes svc with _ | de
        · simp [hown, hdel] at he
        · cases de <;> simp [hown, hdel, StoreErr.isNotFound] at he
          exact ⟨_, he.symm⟩

/-- C6 amended witness: a failing get during the Contour ensure pass
comes back wrapped with the get operation and the selected
namespace/fixed name; a failing create comes back wrapped with the
create operation; a failing delete during the delete pass comes back
raw. -/
theorem reconcile_error_wrapping_witness :
    (ensureContourService stGetBoom cW).1 =
      .error (.wrap .get "projectcontour" contourSvcName
        (.store (.other "boom"))) ∧
    (ensureContourService stCreateBoom cW).1 =
      .error (.wrap .create "projectcontour" contourSvcName
        (.store (.other "cboom"))) ∧
    (ensureContourServiceDeleted stDeleteBoom cW).1 =
      .error (.store (.other "dboom")) :=
  ⟨(reconcile_error_wrapping stGetBoom cW).1 (.other "boom") rfl rfl,
   (reconcile_error_wrapping stCreateBoom cW).2.1 (.other "cboom") rfl rfl,
   (reconcile_error_wrapping stDeleteBoom cW).2.2.2.2.2.2.2.1
     (DesiredContourService cW) (.other "dboom") rfl rfl rfl rfl⟩

/-- A second concrete parent, field-for-field equal to `cW` but built
separately; used to witness determinism of the desired-state generator. -/
def cW2 : Contour :=
  { name := "proj", ns := "operator-ns", specNamespaceName := "projectcontour" }

/-- C7: the desired spec is a pure deterministic function of the parent's
name, namespace and namespace selection, and it always carries both
ownership labels, valued with the parent's name and the parent's own
namespace respectively. -/
theorem desired_pure_and_owner_labeled (c c' : Contour) :
    (c.name = c'.name → c.ns = c'.ns →
      c.specNamespaceName = c'.specNamespaceName →
      DesiredContourService c = DesiredContourService c' ∧
      DesiredEnvoyService c = DesiredEnvoyService c') ∧
    lookupKV (DesiredContourService c).labels OwningContourNameLabel =
      some c.name ∧
    lookupKV (DesiredContourService c).labels OwningContourNsLabel =
      some c.ns ∧
    lookupKV (DesiredEnvoyService c).labels OwningContourNameLabel =
      some c.name ∧
    lookupKV (DesiredEnvoyService c).labels OwningContourNsLabel =
      some c.ns := by
  refine ⟨?_, ?_, ?_, ?_, ?_⟩
  · intro h1 h2 h3
    constructor <;>
      simp [DesiredContourService, DesiredEnvoyService, h1, h2, h3]
  all_goals
    simp [lookupKV, DesiredContourService, DesiredEnvoyService,
      OwningContourNameLabel, OwningContourNsLabel]

/-- C7 witness: two field-for-field equal parents get equal desired
specs, and those specs carry both ownership labels. -/
theorem desired_pure_and_owner_labeled_witness :
    (DesiredContourService cW = DesiredContourService cW2 ∧
      DesiredEnvoyService cW = DesiredEnvoyService cW2) ∧
    lookupKV (DesiredContourService cW).labels OwningContourNameLabel =
      some "proj" :=
  ⟨(desired_pure_and_owner_labeled cW cW2).1 rfl rfl rfl,
   (desired_pure_and_owner_labeled cW cW2).2.1⟩

/-- C8: the internal desired spec is cluster-local with exactly the one
fixed control-plane (xDS) port, the control-plane pod selector and no
annotations; the external desired spec is load-balanced with exactly the
two data-plane ports (plaintext and TLS), the data-plane pod selector,
the raw-TCP cloud backend annotation, and external-traffic policy
Local. -/
theorem desired_spec_shapes (c : Contour) :
    (DesiredContourService c).type = "ClusterIP" ∧
    (DesiredContourService c).ports =
      [{ name := "xds", port := xdsPort, protocol := "TCP",
         targetPort := xdsPort }] ∧
    (DesiredContourService c).selector = contourDeploymentPodSelector ∧
    (DesiredContourService c).serviceAnnotations = [] ∧
    (DesiredEnvoyService c).type = "LoadBalancer" ∧
    (DesiredEnvoyService c).ports =
      [{ name := "http", port := httpPort, protocol := "TCP",
         targetPort := httpPort },
       { name := "https", port := httpsPort, protocol := "TCP",
         targetPort := httpsPort }] ∧
    (DesiredEnvoyService c).selector = envoyDaemonSetPodSelector ∧
    lookupKV (DesiredEnvoyService c).serviceAnnotations
      awsLbBackendProtoAnnot = some "tcp" ∧
    (DesiredEnvoyService c).externalTrafficPolicy = "Local" := by
  refine ⟨rfl, rfl, rfl, rfl, rfl, rfl, rfl, ?_, rfl⟩
  simp [lookupKV, DesiredEnvoyService]

/-- C9: every single ensure invocation issues exactly one get call and at
most one mutating call (never more, never a mix), and a non-NotFound get
error aborts the pass with the lone get as its whole trace. -/
theorem single_get_at_most_one_mutation (st : StoreBehavior) (c : Contour) :
    (countGets (ensureContourService st c).2 = 1 ∧
      countMutating (ensureContourService st c).2 ≤ 1) ∧
    (countGets (ensureEnvoyService st c).2 = 1 ∧
      countMutating (ensureEnvoyService st c).2 ≤ 1) ∧
    (countGets (ensureContourServiceDeleted st c).2 = 1 ∧
      countMutating (ensureContourServiceDeleted st c).2 ≤ 1) ∧
    (countGets (ensureEnvoyServiceDeleted st c).2 = 1 ∧
      countMutating (ensureEnvoyServiceDeleted st c).2 ≤ 1) ∧
    (∀ e, currentContourService st c = .error e → e.isNotFound = false →
      (ensureContourService st c).2 =
        [Call.get c.specNamespaceName contourSvcName] ∧
      (ensureContourServiceDeleted st c).2 =
        [Call.get c.specNamespaceName contourSvcName]) ∧
    (∀ e, currentEnvoyService st c = .error e → e.isNotFound = false →
      (ensureEnvoyService st c).2 =
        [Call.get c.specNamespaceName envoySvcName] ∧
      (ensureEnvoyServiceDeleted st c).2 =
        [Call.get c.specNamespaceName envoySvcName]) := by
  refine ⟨?_, ?_, ?_, ?_, ?_, ?_⟩
  · unfold ensureContourService
    cases hget : currentContourService st c with
    | error ge =>
      cases ge <;>
        simp [StoreErr.isNotFound, prependCall, createService, countGets,
          countMutating, List.countP, List.countP.go, Call.isGet,
          Call.isMutating] <;>
      cases st.createRes (DesiredContourService c) <;>
        simp [List.countP, List.countP.go, Call.isGet, Call.isMutating]
    | ok cur =>
      unfold updateContourServiceIfNeeded
      cases hown : ownerLabelsExist cur c <;>
        cases hch : (ClusterIPServiceChanged cur (DesiredContourService c)).2 <;>
        simp [hown, hch, updateServiceCall, countGets, countMutating,
          List.countP, List.countP.go, Call.isGet, Call.isMutating] <;>
      cases st.updateRes
          (ClusterIPServiceChanged cur (DesiredContourService c)).1 <;>
        simp [List.countP, List.countP.go, Call.isGet, Call.isMutating]
  · unfold ensureEnvoyService
    cases hget : currentEnvoyService st c with
    | error ge =>
      cases ge <;>
        simp [StoreErr.isNotFound, prependCall, createService, countGets,
          countMutating, List.countP, List.countP.go, Call.isGet,
          Call.isMutating] <;>
      cases st.createRes (DesiredEnvoyService c) <;>
        simp [List.countP, List.countP.go, Call.isGet, Call.isMutating]
    | ok cur =>
      unfold updateEnvoyServiceIfNeeded
      cases hown : ownerLabelsExist cur c <;>
        cases hch : (LoadBalancerServiceChanged cur (DesiredEnvoyService c)).2 <;>
        simp [hown, hch, updateServiceCall, countGets, countMutating,
          List.countP, List.countP.go, Call.isGet, Call.isMutating] <;>
      cases st.updateRes
          (LoadBalancerServiceChanged cur (DesiredEnvoyService c)).1 <;>
        simp [List.countP, List.countP.go, Call.isGet, Call.isMutating]
  · unfold ensureContourServiceDeleted
    cases hget : currentContourService st c with
    | error ge =>
      cases ge <;>
        simp [StoreErr.isNotFound, countGets, countMutating, List.countP,
          List.countP.go, Call.isGet, Call.isMutating]
    | ok svc =>
      cases hown : ownerLabelsExist svc c
      · simp [hown, countGets, countMutating, List.countP, List.countP.go,
          Call.isGet, Call.isMutating]
      · rcases hdel : st.deleteRes svc with _ | de
        · simp [hown, hdel, countGets, countMutating, List.countP,
            List.countP.go, Call.isGet, Call.isMutating]
        · cases de <;>
            simp [hown, hdel, StoreErr.isNotFound, countGets, countMutating,
              List.countP, List.countP.go, Call.isGet, Call.isMutating]
  · unfold ensureEnvoyServiceDeleted
    cases hget : currentEnvoyService st c with
    | error ge =>
      cases ge <;>
        simp [StoreErr.isNotFound, countGets, countMutating, List.countP,
          List.countP.go, Call.isGet, Call.isMutating]
    | ok svc =>
      cases hown : ownerLabelsExist svc c
      · simp [hown, countGets, countMutating, List.countP, List.countP.go,
          Call.isGet, Call.isMutating]
      · rcases hdel : st.deleteRes svc with _ | de
        · simp [hown, hdel, countGets, countMutating, List.countP,
            List.countP.go, Call.isGet, Call.isMutating]
        · cases de <;>
            simp [hown, hdel, StoreErr.isNotFound, countGets, countMutating,
              List.countP, List.countP.go, Call.isGet, Call.isMutating]
  · intro e hget hnf
    constructor
    · unfold ensureContourService
      rw [hget]
      simp [hnf]
    · unfold ensureContourServiceDeleted
      rw [hget]
      simp [hnf]
  · intro e hget hnf
    constructor
    · unfold ensureEnvoyService
      rw [hget]
      simp [hnf]
    · unfold ensureEnvoyServiceDeleted
      rw [hget]
      simp [hnf]

/-- C9 witness: with an opaque get failure, the Contour ensure pass's
whole trace is the lone get; with the absent store, the trace counts show
one get and at most one mutation. -/
theorem single_get_at_most_one_mutation_witness :
    (ensureContourService stGetBoom cW).2 =
      [Call.get "projectcontour" contourSvcName] ∧
    countGets (ensureContourService stAbsent cW).2 = 1 ∧
    countMutating (ensureContourService stAbsent cW).2 ≤ 1 :=
  ⟨((single_get_at_most_one_mutation stGetBoom cW).2.2.2.2.1
      (.other "boom") rfl rfl).1,
   (single_get_at_most_one_mutation stAbsent cW).1.1,
   (single_get_at_most_one_mutation stAbsent cW).1.2⟩

/-- C10: all four operations key the child by the parent's selected
namespace (contour.Spec.Namespace.Name) — the trace always starts with a
get in that namespace, and every created service lives there — while the
owning-parent-namespace label on the desired spec records the parent
object's own namespace. -/
theorem child_addressed_by_selected_namespace (st : StoreBehavior)
    (c : Contour) :
    (DesiredContourService c).ns = c.specNamespaceName ∧
    (DesiredEnvoyService c).ns = c.specNamespaceName ∧
    lookupKV (DesiredContourService c).labels OwningContourNsLabel =
      some c.ns ∧
    lookupKV (DesiredEnvoyService c).labels OwningContourNsLabel =
      some c.ns ∧
    (ensureContourService st c).2.head? =
      some (Call.get c.specNamespaceName contourSvcName) ∧
    (ensureEnvoyService st c).2.head? =
      some (Call.get c.specNamespaceName envoySvcName) ∧
    (ensureContourServiceDeleted st c).2.head? =
      some (Call.get c.specNamespaceName contourSvcName) ∧
    (ensureEnvoyServiceDeleted st c).2.head? =
      some (Call.get c.specNamespaceName envoySvcName) ∧
    (∀ s, Call.create s ∈ (ensureContourService st c).2 →
      s.ns = c.specNamespaceName) ∧
    (∀ s, Call.create s ∈ (ensureEnvoyService st c).2 →
      s.ns = c.specNamespaceName) := by
  refine ⟨rfl, rfl, ?_, ?_, ?_, ?_, ?_, ?_, ?_, ?_⟩
  · simp [lookupKV, DesiredContourService, OwningContourNameLabel,
      OwningContourNsLabel]
  · simp [lookupKV, DesiredEnvoyService, OwningContourNameLabel,
      OwningContourNsLabel]
  · unfold ensureContourService
    cases hget : currentContourService st c with
    | error ge =>
      cases ge <;> simp [StoreErr.isNotFound, prependCall, createService]
    | ok cur =>
      rcases hupd : updateContourServiceIfNeeded st c cur
          (DesiredContourService c) with ⟨r, calls⟩
      cases r <;> simp [hupd]
  · unfold ensureEnvoyService
    cases hget : currentEnvoyService st c with
    | error ge =>
      cases ge <;> simp [StoreErr.isNotFound, prependCall, createService]
    | ok cur =>
      rcases hupd : updateEnvoyServiceIfNeeded st c cur
          (DesiredEnvoyService c) with ⟨r, calls⟩
      cases r <;> simp [hupd]
  · unfold ensureContourServiceDeleted
    cases hget : currentContourService st c with
    | error ge => cases ge <;> simp [StoreErr.isNotFound]
    | ok svc =>
      cases hown : ownerLabelsExist svc c
      · simp [hown]
      · rcases hdel : st.deleteRes svc with _ | de
        · simp [hown, hdel]
        · cases de <;> simp [hown, hdel, StoreErr.isNotFound]
  · unfold ensureEnvoyServiceDeleted
    cases hget : currentEnvoyService st c with
    | error ge => cases ge <;> simp [StoreErr.isNotFound]
    | ok svc =>
      cases hown : ownerLabelsExist svc c
      · simp [hown]
      · rcases hdel : st.deleteRes svc with _ | de
        · simp [hown, hdel]
        · cases de <;> simp [hown, hdel, StoreErr.isNotFound]
  · intro s hs
    unfold ensureContourService at hs
    cases hget : currentContourService st c with
    | error ge =>
      rw [hget] at hs
      cases ge with
      | notFound =>
        simp [StoreErr.isNotFound, prependCall, createService] at hs
        rcases hc : st.createRes (DesiredContourService c) with _ | ce <;>
          rw [hc] at hs <;> simp at hs <;> subst hs <;> rfl
      | other msg => simp [StoreErr.isNotFound] at hs
    | ok cur =>
      rw [hget] at hs
      rcases hupd : updateContourServiceIfNeeded st c cur
          (DesiredContourService c) with ⟨r, calls⟩
      have hcalls : calls = [] ∨
          ∃ u, calls = [Call.update u] := by
        unfold updateContourServiceIfNeeded at hupd
        cases hown : ownerLabelsExist cur c
        · rw [hown] at hupd
          simp at hupd
          exact .inl hupd.2
        · rw [hown] at hupd
          cases hch : (ClusterIPServiceChanged cur (DesiredContourService c)).2
          · rw [hch] at hupd
            simp at hupd
            exact .inl hupd.2
          · rw [hch] at hupd
            unfold updateServiceCall at hupd
            rcases hu : st.updateRes
                (ClusterIPServiceChanged cur (DesiredContourService c)).1
              with _ | ue
            · rw [hu] at hupd
              simp at hupd
              exact .inr ⟨_, hupd.2.symm⟩
            · rw [hu] at hupd
              simp at hupd
              exact .inr ⟨_, hupd.2.symm⟩
      cases r <;> simp only [hupd] at hs <;> simp at hs <;>
        rcases hcalls with hc | ⟨u, hc⟩ <;> subst hc <;> simp at hs
  · intro s hs
    unfold ensureEnvoyService at hs
    cases hget : currentEnvoyService st c with
    | error ge =>
      rw [hget] at hs
      cases ge with
      | notFound =>
        simp [StoreErr.isNotFound, prependCall, createService] at hs
        rcases hc : st.createRes (DesiredEnvoyService c) with _ | ce <;>
          rw [hc] at hs <;> simp at hs <;> subst hs <;> rfl
      | other msg => simp [StoreErr.isNotFound] at hs
    | ok cur =>
      rw [hget] at hs
      rcases hupd : updateEnvoyServiceIfNeeded st c cur
          (DesiredEnvoyService c) with ⟨r, calls⟩
      have hcalls : calls = [] ∨
          ∃ u, calls = [Call.update u] := by
        unfold updateEnvoyServiceIfNeeded at hupd
        cases hown : ownerLabelsExist cur c
        · rw [hown] at hupd
          simp at hupd
          exact .inl hupd.2
        · rw [hown] at hupd
          cases hch : (LoadBalancerServiceChanged cur (DesiredEnvoyService c)).2
          · rw [hch] at hupd
            simp at hupd
            exact .inl hupd.2
          · rw [hch] at hupd
            unfold updateServiceCall at hupd
            rcases hu : st.updateRes
                (LoadBalancerServiceChanged cur (DesiredEnvoyService c)).1
              with _ | ue
            · rw [hu] at hupd
              simp at hupd
              exact .inr ⟨_, hupd.2.symm⟩
            · rw [hu] at hupd
              simp at hupd
              exact .inr ⟨_, hupd.2.symm⟩
      cases r <;> simp only [hupd] at hs <;> simp at hs <;>
        rcases hcalls with hc | ⟨u, hc⟩ <;> subst hc <;> simp at hs

/-- C10 witness: with `cW`, whose own namespace operator-ns differs from
its selected namespace projectcontour, the created child lives in the
selected namespace while its owning-parent-namespace label records
operator-ns. -/
theorem child_addressed_by_selected_namespace_witness :
    lookupKV (DesiredContourService cW).labels OwningContourNsLabel =
      some "operator-ns" ∧
    (DesiredContourService cW).ns = "projectcontour" ∧
    (ensureContourService stAbsent cW).2.head? =
      some (Call.get "projectcontour" contourSvcName) :=
  ⟨(child_addressed_by_selected_namespace stAbsent cW).2.2.1,
   (child_addressed_by_selected_namespace stAbsent cW).1,
   (child_addressed_by_selected_namespace stAbsent cW).2.2.2.2.1⟩

end ContourOperator
